import Mathlib

/-!
Verification of the htfile-squid-auth-helper charm against its design
specification.  The Python sources (`src/password.py`, `src/charm_state.py`,
`src/charm.py`, `src/exceptions.py`) are shallowly embedded: pure helpers
become Lean functions, the filesystem / relation environment becomes an
explicit state record, Python exceptions become explicit error values, and
the `secrets` random source becomes an explicit stream of naturals.
-/

set_option maxRecDepth 4096

deriving instance DecidableEq for Except

/-! ### password.py -/

/-- Python `string.ascii_lowercase`: the 26 characters `a`..`z`. -/
def asciiLowercase : List Char := (List.range 26).map (fun i => Char.ofNat (97 + i))

/-- Python `string.ascii_uppercase`: the 26 characters `A`..`Z`. -/
def asciiUppercase : List Char := (List.range 26).map (fun i => Char.ofNat (65 + i))

/-- Python `string.ascii_letters = ascii_lowercase + ascii_uppercase`. -/
def asciiLetters : List Char := asciiLowercase ++ asciiUppercase

/-- Python `string.digits`: the 10 characters `0`..`9`. -/
def asciiDigits : List Char := (List.range 10).map (fun i => Char.ofNat (48 + i))

/-- Python `string.punctuation`: the printable ASCII characters (codes 33..126)
that are neither letters nor digits. -/
def asciiPunctuation : List Char :=
  ((List.range 94).map (fun i => Char.ofNat (33 + i))).filter
    (fun c => !(c.isAlpha || c.isDigit))

/-- The set `hard_to_escape` of `generate_password`: the single-quote (code 39)
and double-quote (code 34) characters. -/
def hardToEscape : List Char := [Char.ofNat 39, Char.ofNat 34]

/-- The character pool `characters` of `generate_password`:
`set(string.ascii_letters + string.digits + string.punctuation) - hard_to_escape`.
Python materialises the set in unspecified order; the pool is used only through
membership and uniform choice, so we keep the concatenation order. -/
def passwordCharacters : List Char :=
  (asciiLetters ++ asciiDigits ++ asciiPunctuation).filter
    (fun c => !hardToEscape.contains c)

/-- One candidate password of `generate_password`:
`"".join(secrets.choice(characters) for i in range(length))`.  The
cryptographic random source is modelled as an explicit stream `choices` of
naturals (reduced mod the pool size, as a uniform choice from the pool),
consumed from position `start`. -/
def drawPassword (choices : Nat → Nat) (start len : Nat) : String :=
  String.mk ((List.range len).map (fun i =>
    passwordCharacters.getD (choices (start + i) % passwordCharacters.length)
      (Char.ofNat 97)))

/-- The acceptance test of the `while True` loop of `generate_password`:
`sum(c.islower() ...) >= 1 and any(c.isupper() ...) >= 1 and sum(c.isdigit() ...) >= 1`
(in Python `any(...) >= 1` is the same as `any(...)`). -/
def passwordPolicyOk (password : String) : Bool :=
  decide (1 ≤ password.data.countP (fun c => c.isLower))
    && password.data.any (fun c => c.isUpper)
    && decide (1 ≤ password.data.countP (fun c => c.isDigit))

/-- The rejection-sampling loop of `generate_password`, with explicit fuel:
each iteration draws a fresh candidate from the random stream and stops when
the composition policy holds.  Python loops without fuel; termination is only
probabilistic, so the embedding returns `none` when the fuel runs out. -/
def generatePasswordLoop (choices : Nat → Nat) (len : Nat) : Nat → Nat → Option String
  | 0, _ => none
  | fuel + 1, start =>
    let password := drawPassword choices start len
    if passwordPolicyOk password then some password
    else generatePasswordLoop choices len fuel (start + len)

/-- `password.generate_password`.  `ValueError("Password length is too short.")`
becomes `Except.error`; a successful draw becomes `Except.ok (some p)`. -/
def generate_password (length : Int) (choices : Nat → Nat) (fuel : Nat) :
    Except String (Option String) :=
  if length < 8 then Except.error "Password length is too short."
  else Except.ok (generatePasswordLoop choices length.toNat fuel 0)

theorem passwordCharacters_length_pos : 0 < passwordCharacters.length := by decide

theorem getD_mod_mem (n : Nat) (d : Char) :
    passwordCharacters.getD (n % passwordCharacters.length) d ∈ passwordCharacters := by
  have h : n % passwordCharacters.length < passwordCharacters.length :=
    Nat.mod_lt _ passwordCharacters_length_pos
  rw [List.getD_eq_getElem passwordCharacters d h]
  exact List.getElem_mem h

theorem drawPassword_length (choices : Nat → Nat) (start len : Nat) :
    (drawPassword choices start len).length = len := by
  simp [drawPassword, String.length]

theorem drawPassword_mem (choices : Nat → Nat) (start len : Nat) :
    ∀ c ∈ (drawPassword choices start len).data, c ∈ passwordCharacters := by
  intro c hc
  simp only [drawPassword, List.mem_map, List.mem_range] at hc
  obtain ⟨i, _, rfl⟩ := hc
  exact getD_mod_mem _ _

theorem passwordPolicyOk_spec (p : String) (h : passwordPolicyOk p = true) :
    (∃ c ∈ p.data, c.isLower = true) ∧ (∃ c ∈ p.data, c.isUpper = true) ∧
      (∃ c ∈ p.data, c.isDigit = true) := by
  simp only [passwordPolicyOk, Bool.and_eq_true, decide_eq_true_eq,
    List.any_eq_true] at h
  obtain ⟨⟨h1, h2⟩, h3⟩ := h
  refine ⟨?_, h2, ?_⟩
  · exact List.countP_pos_iff.mp (Nat.lt_of_lt_of_le Nat.zero_lt_one h1)
  · exact List.countP_pos_iff.mp (Nat.lt_of_lt_of_le Nat.zero_lt_one h3)

theorem generatePasswordLoop_spec (choices : Nat → Nat) (len : Nat) :
    ∀ fuel start p, generatePasswordLoop choices len fuel start = some p →
      p.length = len ∧ passwordPolicyOk p = true ∧
        ∀ c ∈ p.data, c ∈ passwordCharacters := by
  intro fuel
  induction fuel with
  | zero => intro start p h; simp [generatePasswordLoop] at h
  | succ n ih =>
    intro start p h
    simp only [generatePasswordLoop] at h
    split at h
    · obtain rfl : drawPassword choices start len = p := by
        simpa using h
      exact ⟨drawPassword_length _ _ _, by assumption, drawPassword_mem _ _ _⟩
    · exact ih _ _ h

/-- C2: for every `n >= 8`, a password returned by `generate_password n` (for
any random stream and any number of loop iterations) has length exactly `n`,
contains a lowercase letter, an uppercase letter and a digit, and draws every
character from the fixed pool of ASCII letters, digits and punctuation minus
the two quote characters; for every `n < 8` the call fails with
`ValueError("Password length is too short.")`. -/
theorem c2_generate_password (length : Int) (choices : Nat → Nat) (fuel : Nat) :
    (length < 8 ↔
        generate_password length choices fuel = Except.error "Password length is too short.")
    ∧ ∀ p, generate_password length choices fuel = Except.ok (some p) →
        p.length = length.toNat ∧ 8 ≤ length ∧
          (∃ c ∈ p.data, c.isLower = true) ∧ (∃ c ∈ p.data, c.isUpper = true) ∧
          (∃ c ∈ p.data, c.isDigit = true) ∧ ∀ c ∈ p.data, c ∈ passwordCharacters := by
  constructor
  · constructor
    · intro h; simp [generate_password, h]
    · intro h
      by_contra hlt
      simp [generate_password, hlt] at h
  · intro p hp
    have hlen : ¬ length < 8 := by
      intro hlt
      simp [generate_password, hlt] at hp
    simp only [generate_password, if_neg hlen] at hp
    have hloop := generatePasswordLoop_spec choices length.toNat fuel 0 p (by simpa using hp)
    have hpol := passwordPolicyOk_spec p hloop.2.1
    exact ⟨hloop.1, Int.not_lt.mp hlen, hpol.1, hpol.2.1, hpol.2.2, hloop.2.2⟩

/-- A concrete run backing `c2_generate_password`: the stream `i ↦ 26 * i`
draws `a`, `A`, `0`, ... so the first candidate already satisfies the policy. -/
def goodPw : String := drawPassword (fun i => 26 * i) 0 8

theorem c2_generate_password_witness :
    generate_password 7 (fun i => 26 * i) 5 = Except.error "Password length is too short."
    ∧ (goodPw.length = (8 : Int).toNat ∧ (8 : Int) ≤ 8 ∧
        (∃ c ∈ goodPw.data, c.isLower = true) ∧ (∃ c ∈ goodPw.data, c.isUpper = true) ∧
        (∃ c ∈ goodPw.data, c.isDigit = true) ∧ ∀ c ∈ goodPw.data, c ∈ passwordCharacters) :=
  ⟨(c2_generate_password 7 (fun i => 26 * i) 5).1.mp (by decide),
    (c2_generate_password 8 (fun i => 26 * i) 1).2 goodPw rfl⟩

/-! ### charm_state.py: configuration model and validation -/

/-- A raw Juju configuration value as it reaches `SquidAuthConfig(**config)`:
a string, an integer, or Python `None`. -/
inductive ConfigValue
  | str (s : String)
  | int (n : Int)
  | null
deriving DecidableEq

/-- The raw charm configuration passed to `CharmState.from_charm`.  Only the
keys recognised by the pydantic model `SquidAuthConfig` matter (pydantic
ignores extra keys); a `none` field is an absent key. -/
structure RawConfig where
  children_max : Option ConfigValue := none
  children_startup : Option ConfigValue := none
  children_idle : Option ConfigValue := none
  vault_filepath : Option ConfigValue := none
  nonce_garbage_interval : Option ConfigValue := none
  nonce_max_duration : Option ConfigValue := none
  nonce_max_count : Option ConfigValue := none
  realm : Option ConfigValue := none
  authentication_type : Option ConfigValue := none
deriving DecidableEq

/-- The `AuthenticationTypeEnum(str, Enum)` of charm_state.py with members
`BASIC = "basic"` and `DIGEST = "digest"`. -/
inductive AuthenticationTypeEnum
  | basic
  | digest
deriving DecidableEq

/-- The `.value` attribute of the enum member. -/
def AuthenticationTypeEnum.value : AuthenticationTypeEnum → String
  | basic => "basic"
  | digest => "digest"

/-- Python `str(...)` applied to a member of a `(str, Enum)` class (not a
`StrEnum`): the enum `__str__`, which renders as `"ClassName.MEMBER"`. -/
def AuthenticationTypeEnum.pyStr : AuthenticationTypeEnum → String
  | basic => "AuthenticationTypeEnum.BASIC"
  | digest => "AuthenticationTypeEnum.DIGEST"

/-- The validated pydantic model `SquidAuthConfig` with its field defaults.
`Path` fields are carried as their string rendering. -/
structure SquidAuthConfig where
  children_max : Int := 20
  children_startup : Int := 0
  children_idle : Int := 1
  vault_filepath : String
  nonce_garbage_interval : Int := 5
  nonce_max_duration : Int := 30
  nonce_max_count : Int := 50
  realm : String := ""
  authentication_type : AuthenticationTypeEnum := AuthenticationTypeEnum.digest
deriving DecidableEq

/-- Reads a non-empty all-digit character list as a natural number. -/
def digitsToNat (acc : Nat) : List Char → Option Nat
  | [] => some acc
  | c :: cs => if c.isDigit then digitsToNat (acc * 10 + (c.toNat - 48)) cs else none

/-- The decimal-integer strings pydantic coerces to `int` in lax mode:
an optional leading minus sign followed by one or more digits. -/
def parseIntString (s : String) : Option Int :=
  match s.data with
  | [] => none
  | c :: cs =>
    if c = '-' then
      match cs with
      | [] => none
      | _ => (digitsToNat 0 cs).map (fun n => -(n : Int))
    else (digitsToNat 0 (c :: cs)).map (fun n => (n : Int))

/-- Pydantic validation of one optional `int` field with a default: an absent
key takes the default, an integer is accepted, a decimal string is coerced,
anything else yields one error located at the field name. -/
def vInt (name : String) (dflt : Int) : Option ConfigValue → Except (List String) Int
  | none => Except.ok dflt
  | some (ConfigValue.int n) => Except.ok n
  | some (ConfigValue.str s) =>
    match parseIntString s with
    | some n => Except.ok n
    | none => Except.error [name]
  | some ConfigValue.null => Except.error [name]

/-- Pydantic validation of the required `Path` field `vault_filepath`: a string
is accepted as a path, anything else (including an absent key or `None`) yields
one error located at the field name. -/
def vPathRequired (name : String) : Option ConfigValue → Except (List String) String
  | some (ConfigValue.str s) => Except.ok s
  | _ => Except.error [name]

/-- Pydantic validation of the optional `str` field `realm`: an absent key
takes the default, a string is accepted, anything else yields one error. -/
def vStr (name : String) (dflt : String) : Option ConfigValue → Except (List String) String
  | none => Except.ok dflt
  | some (ConfigValue.str s) => Except.ok s
  | _ => Except.error [name]

/-- Pydantic validation of the `authentication_type` enum field: an absent key
takes the default, the member values `"basic"` and `"digest"` are accepted,
anything else yields one error. -/
def vAuthType (name : String) (dflt : AuthenticationTypeEnum) :
    Option ConfigValue → Except (List String) AuthenticationTypeEnum
  | none => Except.ok dflt
  | some (ConfigValue.str s) =>
    if s = "basic" then Except.ok AuthenticationTypeEnum.basic
    else if s = "digest" then Except.ok AuthenticationTypeEnum.digest
    else Except.error [name]
  | _ => Except.error [name]

/-- Applicative combination of field validations, as pydantic performs it:
errors of every field are accumulated into one `ValidationError`. -/
def collectErrors {α β : Type} :
    Except (List String) (α → β) → Except (List String) α → Except (List String) β
  | Except.ok f, Except.ok a => Except.ok (f a)
  | Except.ok _, Except.error e => Except.error e
  | Except.error e, Except.ok _ => Except.error e
  | Except.error e, Except.error f => Except.error (e ++ f)

/-- The error locations a field validation contributes. -/
def fieldErrors {α : Type} : Except (List String) α → List String
  | Except.error e => e
  | Except.ok _ => []

/-- Validation of the whole `SquidAuthConfig` pydantic model: every field is
validated and all per-field errors are reported together, in field
declaration order. -/
def validateConfig (cfg : RawConfig) : Except (List String) SquidAuthConfig :=
  collectErrors (collectErrors (collectErrors (collectErrors (collectErrors
    (collectErrors (collectErrors (collectErrors (collectErrors
      (Except.ok SquidAuthConfig.mk)
      (vInt "children_max" 20 cfg.children_max))
      (vInt "children_startup" 0 cfg.children_startup))
      (vInt "children_idle" 1 cfg.children_idle))
      (vPathRequired "vault_filepath" cfg.vault_filepath))
      (vInt "nonce_garbage_interval" 5 cfg.nonce_garbage_interval))
      (vInt "nonce_max_duration" 30 cfg.nonce_max_duration))
      (vInt "nonce_max_count" 50 cfg.nonce_max_count))
      (vStr "realm" "" cfg.realm))
      (vAuthType "authentication_type" AuthenticationTypeEnum.digest cfg.authentication_type)

/-- The recognised fields whose validation fails, in field declaration order:
the `loc` entries of the pydantic `ValidationError`. -/
def offendingFields (cfg : RawConfig) : List String :=
  fieldErrors (vInt "children_max" 20 cfg.children_max)
    ++ fieldErrors (vInt "children_startup" 0 cfg.children_startup)
    ++ fieldErrors (vInt "children_idle" 1 cfg.children_idle)
    ++ fieldErrors (vPathRequired "vault_filepath" cfg.vault_filepath)
    ++ fieldErrors (vInt "nonce_garbage_interval" 5 cfg.nonce_garbage_interval)
    ++ fieldErrors (vInt "nonce_max_duration" 30 cfg.nonce_max_duration)
    ++ fieldErrors (vInt "nonce_max_count" 50 cfg.nonce_max_count)
    ++ fieldErrors (vStr "realm" "" cfg.realm)
    ++ fieldErrors (vAuthType "authentication_type" AuthenticationTypeEnum.digest cfg.authentication_type)

/-- Python exceptions raised by the modelled code paths. -/
inductive PyError
  | configInvalid (msg : String)
  | squidPathNotFound (msg : String)
  | attributeError (name : String)
  | fileNotFound (msg : String)
deriving DecidableEq

/-- Which of the two candidate squid tool directories exist on the host. -/
structure ToolsEnv where
  squidExists : Bool
  squid3Exists : Bool
deriving DecidableEq

def SQUID_TOOLS_PATH : String := "/usr/lib/squid"

def SQUID3_TOOLS_PATH : String := "/usr/lib/squid3"

def SQUID_DIGEST_AUTH_PROGRAM : String := "digest_file_auth"

def SQUID_BASIC_AUTH_PROGRAM : String := "basic_ncsa_auth"

/-- charm_state.py `_get_squid_tools_path`: probes `/usr/lib/squid` then
`/usr/lib/squid3` and raises `SquidPathNotFoundError` when neither exists. -/
def getSquidToolsPath (env : ToolsEnv) : Except PyError String :=
  if !env.squidExists && !env.squid3Exists then
    Except.error (PyError.squidPathNotFound "Squid tools path can't be found")
  else Except.ok (if env.squidExists then SQUID_TOOLS_PATH else SQUID3_TOOLS_PATH)

/-- The frozen dataclass `CharmState`. -/
structure CharmState where
  squid_auth_config : SquidAuthConfig
  squid_tools_path : String
deriving DecidableEq

/-- `CharmState.from_charm`: pydantic validation of the raw config (all field
errors aggregated into one `CharmConfigInvalidError`), then tools-path
resolution, then the digest-realm consistency check. -/
def CharmState.from_charm (cfg : RawConfig) (env : ToolsEnv) : Except PyError CharmState :=
  match validateConfig cfg with
  | Except.error fields =>
    Except.error (PyError.configInvalid
      ("invalid configuration: " ++ String.intercalate " " fields))
  | Except.ok validated =>
    match getSquidToolsPath env with
    | Except.error e => Except.error e
    | Except.ok tools =>
      if validated.realm = "" ∧ validated.authentication_type = AuthenticationTypeEnum.digest then
        Except.error (PyError.configInvalid
          "realm configuration is mandatory for digest authentication.")
      else Except.ok { squid_auth_config := validated, squid_tools_path := tools }

/-- charm_state.py `CharmState._get_squid_authentication_program`: the helper
command line for the downstream squid proxy. -/
def CharmState.get_squid_authentication_program' (s : CharmState) : String :=
  let program := s.squid_tools_path ++ "/"
  if s.squid_auth_config.authentication_type = AuthenticationTypeEnum.digest then
    program ++ SQUID_DIGEST_AUTH_PROGRAM ++ " -c " ++ s.squid_auth_config.vault_filepath
  else
    program ++ SQUID_BASIC_AUTH_PROGRAM ++ " " ++ s.squid_auth_config.vault_filepath

theorem string_append_assoc (a b c : String) : (a ++ b) ++ c = a ++ (b ++ c) := by
  apply String.ext
  simp

theorem fieldErrors_collectErrors {α β : Type} (f : Except (List String) (α → β))
    (a : Except (List String) α) :
    fieldErrors (collectErrors f a) = fieldErrors f ++ fieldErrors a := by
  cases f <;> cases a <;> simp [collectErrors, fieldErrors]

theorem collectErrors_eq_error {α β : Type} (f : Except (List String) (α → β))
    (a : Except (List String) α) (h : fieldErrors (collectErrors f a) ≠ []) :
    collectErrors f a = Except.error (fieldErrors (collectErrors f a)) := by
  cases f <;> cases a <;> simp [collectErrors, fieldErrors] at h ⊢

theorem fieldErrors_validateConfig (cfg : RawConfig) :
    fieldErrors (validateConfig cfg) = offendingFields cfg := by
  unfold validateConfig offendingFields
  simp only [fieldErrors_collectErrors]
  simp [fieldErrors, List.append_assoc]

theorem validateConfig_eq_error (cfg : RawConfig) (h : offendingFields cfg ≠ []) :
    validateConfig cfg = Except.error (offendingFields cfg) := by
  have hfe := fieldErrors_validateConfig cfg
  rw [← hfe] at h ⊢
  unfold validateConfig at h ⊢
  exact collectErrors_eq_error _ _ h

/-- C5: whenever at least two recognised fields (here any two distinct fields)
fail validation, `CharmState.from_charm` fails with one single
`CharmConfigInvalidError` whose message lists every offending field, not only
the first one encountered. -/
theorem c5_aggregated_errors (cfg : RawConfig) (env : ToolsEnv) (f1 f2 : String)
    (h1 : f1 ∈ offendingFields cfg) (h2 : f2 ∈ offendingFields cfg) (hne : f1 ≠ f2) :
    CharmState.from_charm cfg env =
      Except.error (PyError.configInvalid
        ("invalid configuration: " ++ String.intercalate " " (offendingFields cfg))) := by
  have hnonempty : offendingFields cfg ≠ [] := by
    intro hnil; rw [hnil] at h1; exact absurd h1 (List.not_mem_nil f1)
  unfold CharmState.from_charm
  rw [validateConfig_eq_error cfg hnonempty]

/-- A configuration with two offending fields: a non-numeric `children_max`
and a missing `vault_filepath`. -/
def cfgTwoBad : RawConfig :=
  { children_max := some (ConfigValue.str "abc") }

theorem c5_aggregated_errors_witness :
    CharmState.from_charm cfgTwoBad { squidExists := true, squid3Exists := false } =
      Except.error (PyError.configInvalid
        ("invalid configuration: " ++
          String.intercalate " " (offendingFields cfgTwoBad))) :=
  c5_aggregated_errors cfgTwoBad { squidExists := true, squid3Exists := false }
    "children_max" "vault_filepath" (by decide) (by decide) (by decide)

/-- A basic-field-valid digest configuration with an empty realm: only
`vault_filepath` is set, `realm` defaults to `""` and `authentication_type`
defaults to `DIGEST`. -/
def cfgDigestNoRealm : RawConfig :=
  { vault_filepath := some (ConfigValue.str "/etc/squid-auth/password-file") }

/-- The tools environment in which `/usr/lib/squid` exists. -/
def toolsSquid : ToolsEnv := { squidExists := true, squid3Exists := false }

/-- C3 counterexample: with valid fields, digest mode and an empty realm,
resolution does fail with a `ConfigInvalid` error, but its message is
`"realm configuration is mandatory for digest authentication."`, not the
message `"realm mandatory for digest authentication"` stated by the claim. -/
theorem c3_counterexample :
    CharmState.from_charm cfgDigestNoRealm toolsSquid =
      Except.error (PyError.configInvalid
        "realm configuration is mandatory for digest authentication.")
    ∧ CharmState.from_charm cfgDigestNoRealm toolsSquid ≠
      Except.error (PyError.configInvalid "realm mandatory for digest authentication") := by
  constructor
  · rfl
  · decide

/-- C3 as amended: for every raw configuration whose fields pass pydantic
validation, resolving in digest mode with an empty realm fails with
`ConfigInvalid("realm configuration is mandatory for digest authentication.")`,
provided a squid tools directory exists (otherwise tools-path probing raises
`SquidPathNotFoundError` first); the realm check runs only after the per-field
validation has succeeded. -/
theorem c3_realm_mandatory (cfg : RawConfig) (env : ToolsEnv) (c : SquidAuthConfig)
    (hok : validateConfig cfg = Except.ok c)
    (hrealm : c.realm = "")
    (hmode : c.authentication_type = AuthenticationTypeEnum.digest)
    (htools : (env.squidExists || env.squid3Exists) = true) :
    CharmState.from_charm cfg env =
      Except.error (PyError.configInvalid
        "realm configuration is mandatory for digest authentication.") := by
  unfold CharmState.from_charm
  rw [hok]
  have htp : getSquidToolsPath env =
      Except.ok (if env.squidExists then SQUID_TOOLS_PATH else SQUID3_TOOLS_PATH) := by
    unfold getSquidToolsPath
    rcases Bool.or_eq_true _ _ |>.mp htools with h | h <;> simp [h]
  rw [htp]
  simp [hrealm, hmode]

theorem c3_realm_mandatory_witness :
    CharmState.from_charm cfgDigestNoRealm toolsSquid =
      Except.error (PyError.configInvalid
        "realm configuration is mandatory for digest authentication.") :=
  c3_realm_mandatory cfgDigestNoRealm toolsSquid
    { vault_filepath := "/etc/squid-auth/password-file" } (by decide) rfl rfl (by decide)

/-- C4: for every successfully resolved charm state, the helper invocation
string is `"<tools_path>/digest_file_auth -c <file_path>"` in digest mode and
`"<tools_path>/basic_ncsa_auth <file_path>"` in basic mode, where
`<tools_path>` is the probed squid tools directory and `<file_path>` the
configured vault file path. -/
theorem c4_authentication_program (cfg : RawConfig) (env : ToolsEnv) (st : CharmState)
    (h : CharmState.from_charm cfg env = Except.ok st) :
    CharmState.get_squid_authentication_program' st =
      (if st.squid_auth_config.authentication_type = AuthenticationTypeEnum.digest then
        st.squid_tools_path ++ "/digest_file_auth -c " ++ st.squid_auth_config.vault_filepath
      else
        st.squid_tools_path ++ "/basic_ncsa_auth " ++ st.squid_auth_config.vault_filepath)
    ∧ st.squid_tools_path =
        (if env.squidExists then "/usr/lib/squid" else "/usr/lib/squid3") := by
  constructor
  · unfold CharmState.get_squid_authentication_program'
    rcases hA : st.squid_auth_config.authentication_type <;>
      simp only [hA, if_true, if_false, reduceCtorEq,
        SQUID_DIGEST_AUTH_PROGRAM, SQUID_BASIC_AUTH_PROGRAM] <;>
      simp only [string_append_assoc] <;> rfl
  · unfold CharmState.from_charm at h
    rcases hv : validateConfig cfg with fields | validated <;> rw [hv] at h
    · exact absurd h (by simp)
    · unfold getSquidToolsPath at h
      rcases hb : (!env.squidExists && !env.squid3Exists) <;> rw [hb] at h
      · simp only [Bool.false_eq_true, if_false] at h
        split at h
        · exact absurd h (by simp)
        · simp only [Except.ok.injEq] at h
          rw [← h]
          simp [SQUID_TOOLS_PATH, SQUID3_TOOLS_PATH]
      · exact absurd h (by simp)

/-- A valid raw digest configuration used by several witnesses. -/
def cfgDigestValid : RawConfig :=
  { vault_filepath := some (ConfigValue.str "/etc/squid-auth/password-file"),
    realm := some (ConfigValue.str "digest") }

/-- The charm state `from_charm` resolves `cfgDigestValid` to under
`toolsSquid`. -/
def stDigest : CharmState :=
  { squid_auth_config :=
      { vault_filepath := "/etc/squid-auth/password-file", realm := "digest" },
    squid_tools_path := "/usr/lib/squid" }

theorem c4_authentication_program_witness :
    (CharmState.get_squid_authentication_program' stDigest =
      if stDigest.squid_auth_config.authentication_type = AuthenticationTypeEnum.digest then
        stDigest.squid_tools_path ++ "/digest_file_auth -c "
          ++ stDigest.squid_auth_config.vault_filepath
      else
        stDigest.squid_tools_path ++ "/basic_ncsa_auth "
          ++ stDigest.squid_auth_config.vault_filepath)
    ∧ stDigest.squid_tools_path =
        (if toolsSquid.squidExists then "/usr/lib/squid" else "/usr/lib/squid3") :=
  c4_authentication_program cfgDigestValid toolsSquid stDigest (by decide)

/-! ### charm.py: relation payload builders -/

/-- A value of a relation-data dictionary: the Python type `str | int`. -/
inductive RelValue
  | str (s : String)
  | int (n : Int)
deriving DecidableEq

/-- The `children` string shared verbatim by charm.py
`_get_charm_state_as_relation_data` and charm_state.py `get_as_relation_data`:
`f"{children_max} startup={children_startup} idle={children_idle}"`. -/
def childrenString (c : SquidAuthConfig) : String :=
  toString c.children_max ++ " startup=" ++ toString c.children_startup
    ++ " idle=" ++ toString c.children_idle

/-- The digest-only relation entries, written identically in charm.py
`_get_charm_state_as_relation_data` and charm_state.py `get_as_relation_data`:
`realm`, `nonce_garbage_interval`/`nonce_max_duration` as `f"{n} minutes"`,
and `nonce_max_count` as a plain integer. -/
def digestRelationEntries (c : SquidAuthConfig) : List (String × RelValue) :=
  [("realm", RelValue.str c.realm),
   ("nonce_garbage_interval", RelValue.str (toString c.nonce_garbage_interval ++ " minutes")),
   ("nonce_max_duration", RelValue.str (toString c.nonce_max_duration ++ " minutes")),
   ("nonce_max_count", RelValue.int c.nonce_max_count)]

/-- The dictionary literal of charm.py `_get_charm_state_as_relation_data`
as it was evidently intended: `scheme` is `config.authentication_type.value`
and `program` is the command line of
`CharmState._get_squid_authentication_program`.  The actual method call in
charm.py is modelled separately (see
`charm_get_charm_state_as_relation_data`). -/
def charmRelationDict (s : CharmState) : List (String × RelValue) :=
  [("scheme", RelValue.str s.squid_auth_config.authentication_type.value),
   ("program", RelValue.str (CharmState.get_squid_authentication_program' s)),
   ("children", RelValue.str (childrenString s.squid_auth_config))]
  ++ (if s.squid_auth_config.authentication_type = AuthenticationTypeEnum.digest then
      digestRelationEntries s.squid_auth_config
    else [])

/-- charm.py `HtfileSquidAuthHelperCharm._get_charm_state_as_relation_data`.
While building the dictionary it evaluates
`charm_state.get_squid_authentication_program()`, but the frozen dataclass
`CharmState` defines only `_get_squid_authentication_program` (with a leading
underscore) and `get_as_relation_data`; Python attribute lookup on the
dataclass therefore raises `AttributeError` before any dictionary is
returned. -/
def charm_get_charm_state_as_relation_data (s : CharmState) :
    Except PyError (List (List (String × RelValue))) :=
  Except.error (PyError.attributeError "get_squid_authentication_program")

/-- charm_state.py `CharmState.get_as_relation_data`: the same single-element
list of one dictionary, except that `scheme` is `str(config.authentication_type)`
(rendered `"AuthenticationTypeEnum.<MEMBER>"` by the enum `__str__`) rather
than the member value, and `program` is obtained through the private method
that actually exists. -/
def CharmState.get_as_relation_data (s : CharmState) : List (List (String × RelValue)) :=
  [[("scheme", RelValue.str s.squid_auth_config.authentication_type.pyStr),
    ("program", RelValue.str (CharmState.get_squid_authentication_program' s)),
    ("children", RelValue.str (childrenString s.squid_auth_config))]
   ++ (if s.squid_auth_config.authentication_type = AuthenticationTypeEnum.digest then
       digestRelationEntries s.squid_auth_config
     else [])]

/-- C6: charm.py's relation payload builder never returns the payload the
claim (and the repo's own unit tests) describe: the missing
`get_squid_authentication_program` attribute makes it raise `AttributeError`
on every charm state.  The dictionary literal it was intended to build does
have the claimed shape: a single-element list of one dictionary whose keys are
`scheme`, `program`, `children`, with the `realm`/nonce keys present exactly
in digest mode and `children` the `"<max> startup=<startup> idle=<idle>"`
string. -/
theorem c6_relation_payload (s : CharmState) :
    charm_get_charm_state_as_relation_data s =
      Except.error (PyError.attributeError "get_squid_authentication_program")
    ∧ [charmRelationDict s].length = 1
    ∧ (charmRelationDict s).map Prod.fst =
        ["scheme", "program", "children"]
          ++ (if s.squid_auth_config.authentication_type = AuthenticationTypeEnum.digest then
              ["realm", "nonce_garbage_interval", "nonce_max_duration", "nonce_max_count"]
            else [])
    ∧ (charmRelationDict s).lookup "children" =
        some (RelValue.str (toString s.squid_auth_config.children_max ++ " startup="
          ++ toString s.squid_auth_config.children_startup ++ " idle="
          ++ toString s.squid_auth_config.children_idle)) := by
  refine ⟨rfl, rfl, ?_, ?_⟩ <;>
    rcases hA : s.squid_auth_config.authentication_type <;>
      simp [charmRelationDict, digestRelationEntries, childrenString, hA, List.lookup]

/-- C10 counterexample: at a concrete digest charm state the two payload
builders do not return the same value — charm.py's raises `AttributeError`
while `CharmState.get_as_relation_data` returns a list. -/
theorem c10_counterexample :
    charm_get_charm_state_as_relation_data stDigest =
      Except.error (PyError.attributeError "get_squid_authentication_program")
    ∧ charm_get_charm_state_as_relation_data stDigest ≠
      Except.ok (CharmState.get_as_relation_data stDigest) := by
  exact ⟨rfl, by decide⟩

/-- C10 as amended: the two duplicated payload builders do not agree.  On
every charm state charm.py's `_get_charm_state_as_relation_data` raises
`AttributeError` (it calls the non-existent `get_squid_authentication_program`
method), and even modulo that slip the builders disagree on `scheme`:
charm.py's literal uses `authentication_type.value` where
`CharmState.get_as_relation_data` uses `str(authentication_type)`, two strings
that always differ; the `program`, `children` and digest-only entries agree. -/
theorem c10_payload_builders_disagree (s : CharmState) :
    charm_get_charm_state_as_relation_data s =
      Except.error (PyError.attributeError "get_squid_authentication_program")
    ∧ CharmState.get_as_relation_data s =
        [("scheme", RelValue.str s.squid_auth_config.authentication_type.pyStr)
          :: (charmRelationDict s).tail]
    ∧ (charmRelationDict s).head? =
        some ("scheme", RelValue.str s.squid_auth_config.authentication_type.value)
    ∧ (s.squid_auth_config.authentication_type.pyStr
        == s.squid_auth_config.authentication_type.value) = false := by
  refine ⟨rfl, ?_, ?_, ?_⟩ <;>
    rcases hA : s.squid_auth_config.authentication_type <;>
      simp [CharmState.get_as_relation_data, charmRelationDict, hA,
        AuthenticationTypeEnum.pyStr, AuthenticationTypeEnum.value]

/-! ### charm.py: vault, world state and event handlers -/

/-- The on-disk vault file: its parsed credential records (one per username,
with the stored hash for the configured realm/scheme) and its file mode.
`passlib` round-trips these records (spec section 8); its hash computation is
abstracted by `hashOfPassword` below. -/
structure VaultFile where
  entries : List (String × String)
  mode : Nat
deriving DecidableEq

/-- The environment a charm event executes in: the raw configuration, the
squid tools directories, the number of `squid-auth-helper` relations, and the
vault file (`none` when the file does not exist on disk). -/
structure CharmWorld where
  config : RawConfig
  tools : ToolsEnv
  relations : Nat
  vaultFile : Option VaultFile
deriving DecidableEq

/-- passlib lookup of the record of one username. -/
def vaultFind (entries : List (String × String)) (user : String) :
    Option (String × String) :=
  entries.find? (fun e => e.1 == user)

/-- passlib `get_hash`: the stored hash of the user, `None` when absent. -/
def vaultGetHash (entries : List (String × String)) (user : String) : Option String :=
  (vaultFind entries user).map (fun e => e.2)

/-- Python truthiness of the `get_hash` result: `None` and the empty string
are falsy. -/
def truthy : Option String → Bool
  | none => false
  | some h => h ≠ ""

/-- The hash passlib stores for a password; the cryptographic computation
(htdigest MD5 for digest mode, sha256-crypt for basic mode) is delegated to
the passlib library and abstracted here as an opaque tagged string — no claim
inspects the stored hash value. -/
def hashOfPassword (auth : AuthenticationTypeEnum) (realm user pw : String) : String :=
  "hash(" ++ auth.value ++ "," ++ realm ++ "," ++ user ++ "," ++ pw ++ ")"

/-- passlib `set_password`: upserts the record and returns `True` exactly when
a record for the user already existed (the truthy return charm.py treats as a
save failure). -/
def vaultSetPassword (entries : List (String × String)) (user hash : String) :
    Bool × List (String × String) :=
  if (vaultFind entries user).isSome then
    (true, entries.map (fun e => if e.1 == user then (user, hash) else e))
  else (false, entries ++ [(user, hash)])

/-- passlib `delete`: removes the record and returns whether it existed. -/
def vaultDelete (entries : List (String × String)) (user : String) :
    Bool × List (String × String) :=
  if (vaultFind entries user).isSome then
    (true, entries.filter (fun e => !(e.1 == user)))
  else (false, entries)

def AUTH_HELPER_RELATION_NAME : String := "squid-auth-helper"

def EVENT_FAIL_RELATION_MISSING_MESSAGE : String :=
  "Before running this action, integrate the charm to a Squid Reverseproxy charm."

def STATUS_BLOCKED_RELATION_MISSING_MESSAGE : String :=
  "Waiting for integration with Squid Reverseproxy charm..."

def VAULT_FILE_MISSING : String :=
  "Vault file is missing, something probably went wrong during install."

/-- How an action event ends: `results` for `event.set_results`, `fail` for
`event.fail`, `raised` for an exception escaping the handler, and `blocked`
for the `block_if_invalid_config` decorator catching
`CharmConfigInvalidError` (the event then gets neither results nor failure
and the unit status becomes Blocked with the exception message). -/
inductive ActionOutcome
  | results (kvs : List (String × String))
  | fail (msg : String)
  | raised (e : PyError)
  | blocked (msg : String)
deriving DecidableEq

def ActionOutcome.isFail : ActionOutcome → Bool
  | ActionOutcome.fail _ => true
  | _ => false

/-- charm.py `_on_create_user`, returning the action outcome together with the
state of the vault file after the event.  The order of checks follows the
source: config resolution (wrapped by `block_if_invalid_config`), the
relation guard, `_get_auth_vault` (raising `SquidPathNotFoundError` when the
file is missing), the existing-user guard, `pwd.genword()` (modelled by the
`generated_password` argument), `set_password`, `save`. -/
def onCreateUser (w : CharmWorld) (username generated_password : String) :
    ActionOutcome × Option VaultFile :=
  match CharmState.from_charm w.config w.tools with
  | Except.error (PyError.configInvalid msg) => (ActionOutcome.blocked msg, w.vaultFile)
  | Except.error e => (ActionOutcome.raised e, w.vaultFile)
  | Except.ok st =>
    if w.relations = 0 then
      (ActionOutcome.fail EVENT_FAIL_RELATION_MISSING_MESSAGE, w.vaultFile)
    else
      match w.vaultFile with
      | none =>
        (ActionOutcome.raised (PyError.squidPathNotFound VAULT_FILE_MISSING), none)
      | some vf =>
        if truthy (vaultGetHash vf.entries username) then
          (ActionOutcome.results
            [("message", "User " ++ username ++ " already exists.")], some vf)
        else
          let setResult := vaultSetPassword vf.entries username
            (hashOfPassword st.squid_auth_config.authentication_type
              st.squid_auth_config.realm username generated_password)
          if setResult.1 then
            (ActionOutcome.fail "An error occurred when saving the vault file.", some vf)
          else
            (ActionOutcome.results
              ([("username", username), ("password", generated_password),
                ("message", "User " ++ username ++ " created.")]
                ++ (if st.squid_auth_config.authentication_type
                      = AuthenticationTypeEnum.digest then
                    [("realm", st.squid_auth_config.realm)]
                  else [])),
              some { entries := setResult.2, mode := vf.mode })

/-- charm.py `_on_remove_user`: config resolution, relation guard,
`_get_auth_vault`, `delete`, then `save` (the vault is saved whether or not
the user existed). -/
def onRemoveUser (w : CharmWorld) (username : String) :
    ActionOutcome × Option VaultFile :=
  match CharmState.from_charm w.config w.tools with
  | Except.error (PyError.configInvalid msg) => (ActionOutcome.blocked msg, w.vaultFile)
  | Except.error e => (ActionOutcome.raised e, w.vaultFile)
  | Except.ok _ =>
    if w.relations = 0 then
      (ActionOutcome.fail EVENT_FAIL_RELATION_MISSING_MESSAGE, w.vaultFile)
    else
      match w.vaultFile with
      | none =>
        (ActionOutcome.raised (PyError.squidPathNotFound VAULT_FILE_MISSING), none)
      | some vf =>
        let deleteResult := vaultDelete vf.entries username
        (ActionOutcome.results
          [("message",
            if deleteResult.1 then "User " ++ username ++ " removed."
            else "User " ++ username ++ " doesn't exists.")],
          some { entries := deleteResult.2, mode := vf.mode })

/-- The unit status set by an event handler. -/
inductive Status
  | active
  | blocked (msg : String)
deriving DecidableEq

/-- charm.py `_compute_charm_status`. -/
def computeCharmStatus (relations : Nat) : Status :=
  if relations = 0 then Status.blocked STATUS_BLOCKED_RELATION_MISSING_MESSAGE
  else Status.active

/-- How a relation-broken event ends: a status together with the resulting
vault file, or an escaped exception. -/
inductive BrokenResult
  | done (status : Status) (file : Option VaultFile)
  | raised (e : PyError) (file : Option VaultFile)
deriving DecidableEq

/-- charm.py `_on_squid_auth_helper_relation_broken`: config resolution
(decorated), status computation, and — when no `squid-auth-helper` relation
remains — `vault_filepath.unlink()` (raising `FileNotFoundError` when the
file is already gone) followed by `touch(0o644, exist_ok=True)`. -/
def onRelationBroken (w : CharmWorld) : BrokenResult :=
  match CharmState.from_charm w.config w.tools with
  | Except.error (PyError.configInvalid msg) =>
    BrokenResult.done (Status.blocked msg) w.vaultFile
  | Except.error e => BrokenResult.raised e w.vaultFile
  | Except.ok _ =>
    let status := computeCharmStatus w.relations
    if w.relations = 0 then
      match w.vaultFile with
      | none => BrokenResult.raised (PyError.fileNotFound "vault file") none
      | some _ => BrokenResult.done status (some { entries := [], mode := 0o644 })
    else BrokenResult.done status w.vaultFile

/-- C1 counterexample: a charm state with a valid configuration whose vault
file is missing, but with no `squid-auth-helper` relation — the create-user
action fails with the relation-missing message (the relation guard runs
before any vault access), not by raising `VaultFileMissing`; no vault file is
created in either case. -/
def wNoRelation : CharmWorld :=
  { config := cfgDigestValid, tools := toolsSquid, relations := 0, vaultFile := none }

theorem c1_counterexample :
    (onCreateUser wNoRelation "test" "pw").1 =
      ActionOutcome.fail EVENT_FAIL_RELATION_MISSING_MESSAGE
    ∧ (onCreateUser wNoRelation "test" "pw").1 ≠
      ActionOutcome.raised (PyError.squidPathNotFound VAULT_FILE_MISSING)
    ∧ (onCreateUser wNoRelation "test" "pw").2 = none :=
  ⟨rfl, by decide, rfl⟩

/-- C1 as amended: whenever the configuration resolves, at least one
`squid-auth-helper` relation exists and the configured vault file path does
not exist on disk, the create-user action raises `SquidPathNotFoundError`
with the vault-file-missing message and creates no vault file — regardless of
whether the file existed earlier; without a relation the action instead fails
with the relation-missing message (and still creates no file). -/
theorem c1_vault_file_missing (w : CharmWorld) (username generated : String)
    (st : CharmState)
    (hok : CharmState.from_charm w.config w.tools = Except.ok st)
    (hrel : w.relations ≠ 0) (hfile : w.vaultFile = none) :
    onCreateUser w username generated =
      (ActionOutcome.raised (PyError.squidPathNotFound VAULT_FILE_MISSING), none) := by
  unfold onCreateUser
  rw [hok, hfile]
  simp [hrel]

/-- A world with a valid digest configuration, one relation and no vault
file. -/
def wMissingVault : CharmWorld :=
  { config := cfgDigestValid, tools := toolsSquid, relations := 1, vaultFile := none }

theorem c1_vault_file_missing_witness :
    onCreateUser wMissingVault "test" "pw" =
      (ActionOutcome.raised (PyError.squidPathNotFound VAULT_FILE_MISSING), none) :=
  c1_vault_file_missing wMissingVault "test" "pw" stDigest (by decide) (by decide) rfl

/-- C7 as amended: when the relation exists, the vault file exists and the
requested username already has a non-empty hash in the vault, the create-user
action completes successfully via `event.set_results` with the message
`"User <username> already exists."` (it does not fail), and the vault file is
left unchanged — no password is set and the file is not saved. -/
theorem c7_user_already_exists (w : CharmWorld) (username generated : String)
    (st : CharmState) (vf : VaultFile) (h : String)
    (hok : CharmState.from_charm w.config w.tools = Except.ok st)
    (hrel : w.relations ≠ 0) (hfile : w.vaultFile = some vf)
    (hhash : vaultGetHash vf.entries username = some h) (hne : h ≠ "") :
    onCreateUser w username generated =
      (ActionOutcome.results [("message", "User " ++ username ++ " already exists.")],
        some vf) := by
  unfold onCreateUser
  rw [hok, hfile]
  have htr : truthy (vaultGetHash vf.entries username) = true := by
    rw [hhash]; simpa [truthy] using hne
  simp [hrel, htr]

/-- A world whose vault already holds the user `test`. -/
def wUserExists : CharmWorld :=
  { config := cfgDigestValid, tools := toolsSquid, relations := 1,
    vaultFile := some { entries := [("test", "abc123")], mode := 0o644 } }

theorem c7_user_already_exists_witness :
    onCreateUser wUserExists "test" "pw" =
      (ActionOutcome.results [("message", "User " ++ "test" ++ " already exists.")],
        some { entries := [("test", "abc123")], mode := 0o644 }) :=
  c7_user_already_exists wUserExists "test" "pw" stDigest
    { entries := [("test", "abc123")], mode := 0o644 } "abc123"
    (by decide) (by decide) rfl rfl (by decide)

/-- C7 counterexample: at a concrete world whose vault already holds the
requested username, the create-user action does not fail — its outcome is a
successful `set_results` with the already-exists message (while the vault file
is indeed left unchanged). -/
theorem c7_counterexample :
    (onCreateUser wUserExists "test" "pw").1 =
      ActionOutcome.results [("message", "User test already exists.")]
    ∧ ActionOutcome.isFail (onCreateUser wUserExists "test" "pw").1 = false
    ∧ (onCreateUser wUserExists "test" "pw").2 = wUserExists.vaultFile :=
  ⟨rfl, rfl, rfl⟩

/-- C8: when the relation exists, the vault file exists and the requested
username is not present in the vault, the remove-user action reports the
not-found message, `delete` returns false, and the persisted vault file
records (and mode) are exactly what they were before the invocation. -/
theorem c8_remove_missing_user (w : CharmWorld) (username : String)
    (st : CharmState) (vf : VaultFile)
    (hok : CharmState.from_charm w.config w.tools = Except.ok st)
    (hrel : w.relations ≠ 0) (hfile : w.vaultFile = some vf)
    (habsent : vaultGetHash vf.entries username = none) :
    onRemoveUser w username =
      (ActionOutcome.results [("message", "User " ++ username ++ " doesn't exists.")],
        some vf)
    ∧ (vaultDelete vf.entries username).1 = false := by
  have hfind : vaultFind vf.entries username = none := by
    rcases hf : vaultFind vf.entries username with _ | e
    · rfl
    · rw [vaultGetHash, hf] at habsent; simp at habsent
  have hdel : vaultDelete vf.entries username = (false, vf.entries) := by
    simp [vaultDelete, hfind]
  constructor
  · unfold onRemoveUser
    rw [hok, hfile]
    simp [hrel, hdel]
  · rw [hdel]

/-- A world with one relation and an empty vault file. -/
def wEmptyVault : CharmWorld :=
  { config := cfgDigestValid, tools := toolsSquid, relations := 1,
    vaultFile := some { entries := [], mode := 0o644 } }

theorem c8_remove_missing_user_witness :
    (onRemoveUser wEmptyVault "test" =
      (ActionOutcome.results [("message", "User " ++ "test" ++ " doesn't exists.")],
        some { entries := [], mode := 0o644 }))
    ∧ (vaultDelete ([] : List (String × String)) "test").1 = false :=
  c8_remove_missing_user wEmptyVault "test" stDigest { entries := [], mode := 0o644 }
    (by decide) (by decide) rfl rfl

/-- C9: a relation-broken event handled with a valid configuration while the
vault file exists.  If no `squid-auth-helper` relation remains, the handler
deletes the vault file and recreates it empty with mode `0o644` — discarding
every stored credential — and the unit status becomes Blocked with the
waiting-for-integration message; if some relation remains, the vault file is
untouched and the status is Active. -/
theorem c9_relation_broken (w : CharmWorld) (st : CharmState) (vf : VaultFile)
    (hok : CharmState.from_charm w.config w.tools = Except.ok st)
    (hfile : w.vaultFile = some vf) :
    onRelationBroken w =
      (if w.relations = 0 then
        BrokenResult.done (Status.blocked STATUS_BLOCKED_RELATION_MISSING_MESSAGE)
          (some { entries := [], mode := 0o644 })
      else BrokenResult.done Status.active (some vf)) := by
  unfold onRelationBroken
  rw [hok, hfile]
  rcases Nat.eq_zero_or_pos w.relations with h0 | hpos
  · simp [h0, computeCharmStatus]
  · have hne : w.relations ≠ 0 := Nat.pos_iff_ne_zero.mp hpos
    simp [hne, computeCharmStatus]

/-- A world with a valid configuration, a populated vault file, and no
remaining relation after the broken event. -/
def wLastRelationGone : CharmWorld :=
  { config := cfgDigestValid, tools := toolsSquid, relations := 0,
    vaultFile := some { entries := [("test", "abc123")], mode := 0o644 } }

theorem c9_relation_broken_witness :
    onRelationBroken wLastRelationGone =
      (if wLastRelationGone.relations = 0 then
        BrokenResult.done (Status.blocked STATUS_BLOCKED_RELATION_MISSING_MESSAGE)
          (some { entries := [], mode := 0o644 })
      else BrokenResult.done Status.active
        (some { entries := [("test", "abc123")], mode := 0o644 })) :=
  c9_relation_broken wLastRelationGone stDigest
    { entries := [("test", "abc123")], mode := 0o644 } (by decide) rfl
